import Mathlib

/-! weblift-api-server: the deploy and status handlers of `index.js`.

A shallow embedding of the two Express handlers of `src/index.js`
(`POST /api/v2/deploy` and `GET /api/v2/status`).  The cloud provider, the
slug generator, the console and the HTTP response object are external; every
interaction with them is recorded as an `Event` in a trace, and the provider's
answers are supplied by an `Env`.
-/

namespace Weblift

/-! ## JavaScript values -/

/-- A thrown JavaScript `Error` object: its `name` and its `message`. -/
structure JsErr where
  name : String
  message : String

/-- The JavaScript values the handlers move around: what a request field can
hold after `express.json()` (a missing field reads as `undefined`; a JSON
object is the list of its own properties), the object literals passed to
`res.json`, and a caught error object. JSON numbers, booleans and arrays are
not modelled. -/
inductive JsVal where
  | undefined : JsVal
  | null : JsVal
  | str (s : String) : JsVal
  | obj (fields : List (String × JsVal)) : JsVal
  | err (e : JsErr) : JsVal

/-- `Error.prototype.toString`. -/
def JsErr.toStr (e : JsErr) : String :=
  if e.name = "" then e.message
  else if e.message = "" then e.name
  else e.name ++ ": " ++ e.message

/-- The `TypeError` raised when an object has no primitive value. -/
def notPrimitive : JsErr :=
  { name := "TypeError", message := "Cannot convert object to primitive value" }

/-- The string a template literal substitutes for `${v}` (the conversion
`ToString`). On an object it calls `toString`: an object without an own
`toString` property inherits the one of `Object.prototype` and gives
`[object Object]`; an own `toString` property parsed from JSON is not callable,
`valueOf` yields no primitive either, and the conversion throws. -/
def tpl : JsVal → Except JsErr String
  | .undefined => .ok "undefined"
  | .null => .ok "null"
  | .str s => .ok s
  | .obj fields =>
    if (fields.lookup "toString").isSome then .error notPrimitive
    else .ok "[object Object]"
  | .err e => .ok e.toStr

/-- An optional string of the provider SDK (`string | undefined`) as a value. -/
def JsVal.ofOption : Option String → JsVal
  | none => .undefined
  | some s => .str s

/-- Property read `o.k` on a value that is an object; a missing property reads
as `undefined`. -/
def JsVal.get (k : String) : JsVal → JsVal
  | .obj fields => (fields.lookup k).getD .undefined
  | _ => .undefined

/-- Whether the object has an own property `k`. -/
def JsVal.hasKey (k : String) : JsVal → Bool
  | .obj fields => (fields.lookup k).isSome
  | _ => false

/-! ## Provider data -/

structure Tag where
  Key : String
  Value : String

structure TagSpecification where
  ResourceType : String
  Tags : List Tag

structure IamInstanceProfile where
  Name : String

/-- The argument of `RunInstancesCommand`. -/
structure InstanceParams where
  ImageId : String
  InstanceType : String
  SecurityGroupIds : List String
  MinCount : Nat
  MaxCount : Nat
  TagSpecifications : List TagSpecification
  IamInstanceProfile : IamInstanceProfile

/-- The argument of `SendCommandCommand`; `commands` is `Parameters.commands`. -/
structure SsmCommandParams where
  DocumentName : String
  commands : List String
  InstanceIds : List JsVal

/-- An instance record in a provider answer. -/
structure Instance where
  InstanceId : Option String
  PublicIpAddress : Option String

structure RunInstancesOutput where
  Instances : Option (List Instance)

structure Reservation where
  Instances : Option (List Instance)

structure DescribeInstancesOutput where
  Reservations : Option (List Reservation)

/-! ## Effects -/

/-- One interaction of a handler with the outside world. -/
inductive Event where
  | consoleLog (args : List JsVal) : Event
  | consoleError (args : List JsVal) : Event
  | ec2RunInstances (params : InstanceParams) : Event
  | resJson (body : JsVal) : Event
  | setTimeout (ms : Nat) : Event
  | ssmSendCommand (params : SsmCommandParams) : Event
  | ec2DescribeInstances (instanceIds : List JsVal) : Event

/-- A run of handler code: the events it emitted, in order, and whether it
completed with a value or threw. Events emitted before a throw are kept. -/
structure Eff (α : Type) where
  trace : List Event
  result : Except JsErr α

def Eff.pure {α : Type} (a : α) : Eff α := ⟨[], .ok a⟩

def Eff.bind {α β : Type} (m : Eff α) (f : α → Eff β) : Eff β :=
  match m.result with
  | .error e => ⟨m.trace, .error e⟩
  | .ok a => ⟨m.trace ++ (f a).trace, (f a).result⟩

def Eff.tryCatch {α : Type} (m : Eff α) (h : JsErr → Eff α) : Eff α :=
  match m.result with
  | .error e => ⟨m.trace ++ (h e).trace, (h e).result⟩
  | .ok a => ⟨m.trace, .ok a⟩

instance : Monad Eff where
  pure := Eff.pure
  bind := Eff.bind

instance : MonadExcept JsErr Eff where
  throw e := ⟨[], .error e⟩
  tryCatch := Eff.tryCatch

/-- Emit one event. -/
def emit (ev : Event) : Eff Unit := ⟨[ev], .ok ()⟩

/-- Await a provider call: the call is made, then its answer is returned or its
rejection thrown. -/
def await {α : Type} (ev : Event) (answer : Except JsErr α) : Eff α := ⟨[ev], answer⟩

/-- Evaluate an expression that may throw, without any effect. -/
def evaluate {α : Type} (r : Except JsErr α) : Eff α := ⟨[], r⟩

/-- The `TypeError` raised by a property read on `undefined`. -/
def typeError (prop : String) : JsErr :=
  { name := "TypeError",
    message := "Cannot read properties of undefined (reading \x27" ++ prop ++ "\x27)" }

/-- The read `xs[0]`: it throws when `xs` is `undefined`, and on an empty array
it gives `undefined`. -/
def index0 {α : Type} : Option (List α) → Except JsErr (Option α)
  | none => .error (typeError "0")
  | some [] => .ok none
  | some (x :: _) => .ok (some x)

/-- Reading property `prop` of `o` with getter `f`; throws when `o` is
`undefined`. -/
def readProp {α β : Type} (prop : String) (f : α → β) : Option α → Except JsErr β
  | none => .error (typeError prop)
  | some a => .ok (f a)

/-! ## Constants of `index.js` -/

def INSTANCE_TYPE : String := "t2.micro"
def AMI_ID : String := "ami-0a51a22a987dc45fd"
def SECURITY_GROUP_ID : String := "sg-0b34e34d59a58cb23"

/-! ## The deploy handler -/

/-- The fields the deploy handler destructures from `req.body`. -/
structure ReqBody where
  gitURL : JsVal
  framework : JsVal
  rootDirectory : JsVal
  buildCommand : JsVal
  startCommand : JsVal
  envVariables : JsVal

/-- What the outside world answers during one invocation of a handler. -/
structure Env where
  generateSlug : String
  runInstances : InstanceParams → Except JsErr RunInstancesOutput
  sendCommand : SsmCommandParams → Except JsErr Unit
  describeInstances : List JsVal → Except JsErr DescribeInstancesOutput

/-- The object literal `instanceParams` of the deploy handler. -/
def instanceParams (projectSlug : String) : InstanceParams :=
  { ImageId := AMI_ID,
    InstanceType := INSTANCE_TYPE,
    SecurityGroupIds := [SECURITY_GROUP_ID],
    MinCount := 1,
    MaxCount := 1,
    TagSpecifications := [
      { ResourceType := "instance",
        Tags := [
          { Key := "Project", Value := "DynamicDeployment" },
          { Key := "Name", Value := projectSlug } ] } ],
    IamInstanceProfile := { Name := "AmazonEC2RoleforSSM" } }

/-- The template literal `userDataScript` of the deploy handler. Its
substitutions are converted to strings from left to right; the first conversion
that throws ends the evaluation. -/
def userDataScript (projectSlug : String)
    (gitURL rootDirectory buildCommand startCommand envVariables : JsVal) :
    Except JsErr String := do
  let gitURL ← tpl gitURL
  let rootDirectory ← tpl rootDirectory
  let envVariables ← tpl envVariables
  let buildCommand ← tpl buildCommand
  let startCommand ← tpl startCommand
  return "\n#!/bin/bash\n\n# Update the system and install required packages\nsudo yum update -y\nsudo yum install -y git\n\n# Clone the repository\ngit clone "
    ++ gitURL ++ " /home/" ++ projectSlug
    ++ "/app\n\n# Navigate to the app directory\ncd /home/"
    ++ projectSlug ++ "/app/" ++ rootDirectory
    ++ "\n\n# Create a .env file if environment variables are provided\nif [ ! -z \""
    ++ envVariables
    ++ "\" ]; then\n    echo \"Creating .env file with provided environment variables\"\n    cat <<EOT > .env\n"
    ++ envVariables
    ++ "\nEOT\nfi\n\n# Node.js setup\necho \"Setting up Node.js project\"\ncurl -sL https://rpm.nodesource.com/setup_16.x | sudo -E bash -\nsudo yum install -y nodejs\nsudo npm install -g yarn\n\n# Run user-specified build command\nif [ ! -z \""
    ++ buildCommand
    ++ "\" ]; then\n    echo \"Running build command\"\n    "
    ++ buildCommand
    ++ "\nfi\n\n# Start the application\necho \"Starting the application with start command\"\nnohup "
    ++ startCommand ++ " > /home/" ++ projectSlug ++ "/app/logs.log 2>&1 &\n"

/-- The object literal `ssmCommandParams` of the deploy handler. -/
def ssmCommandParams (script : String) (instanceId : JsVal) : SsmCommandParams :=
  { DocumentName := "AWS-RunShellScript",
    commands := [script],
    InstanceIds := [instanceId] }

/-- The object passed to `res.json` by the deploy handler. -/
def deployResponse (projectSlug : String) (instanceId : JsVal) : JsVal :=
  .obj [("status", .str "Deploying"),
        ("data", .obj [("projectSlug", .str projectSlug),
                       ("url", .str "IP address yet to be assigned"),
                       ("instance_ID", instanceId)])]

/-- The expression `x.Instances[0].InstanceId` on a `RunInstances` answer. -/
def firstInstanceId (instanceData : RunInstancesOutput) : Except JsErr JsVal :=
  match index0 instanceData.Instances with
  | .error e => .error e
  | .ok first => readProp "InstanceId" (fun i => JsVal.ofOption i.InstanceId) first

/-- The expression `x.Reservations[0].Instances[0].PublicIpAddress` on a
`DescribeInstances` answer. -/
def firstPublicIp (resp : DescribeInstancesOutput) : Except JsErr JsVal :=
  match index0 resp.Reservations with
  | .error e => .error e
  | .ok r =>
    match readProp "Instances" Reservation.Instances r with
    | .error e => .error e
    | .ok insts =>
      match index0 insts with
      | .error e => .error e
      | .ok first => readProp "PublicIpAddress" (fun i => JsVal.ofOption i.PublicIpAddress) first

/-- The handler of `app.post(/api/v2/deploy)`. -/
def deployHandler (env : Env) (body : ReqBody) : Eff Unit := do
  let projectSlug := env.generateSlug
  try
    emit (.consoleLog [.str "Creating machine"])
    let instanceData ← await (.ec2RunInstances (instanceParams projectSlug))
      (env.runInstances (instanceParams projectSlug))
    let instanceId ← evaluate (firstInstanceId instanceData)
    let createdId ← evaluate (tpl instanceId)
    emit (.consoleLog [.str ("Instance created with ID: " ++ createdId)])
    emit (.resJson (deployResponse projectSlug instanceId))
    emit (.setTimeout (60000 * 3))
    let userDataScript ← evaluate (userDataScript projectSlug body.gitURL body.rootDirectory
      body.buildCommand body.startCommand body.envVariables)
    await (.ssmSendCommand (ssmCommandParams userDataScript instanceId))
      (env.sendCommand (ssmCommandParams userDataScript instanceId))
    let sentId ← evaluate (tpl instanceId)
    emit (.consoleLog [.str ("Commands sent to EC2 instance with ID: " ++ sentId)])
    let describeInstancesResponse ← await (.ec2DescribeInstances [instanceId])
      (env.describeInstances [instanceId])
    let publicIp ← evaluate (firstPublicIp describeInstancesResponse)
    emit (.consoleLog [publicIp])
  catch error =>
    emit (.consoleError [.str "Error creating or setting up EC2 instance:", .err error])

/-! ## The status handler -/

/-- The handler of `app.get(/api/v2/status)`; `instanceID` is
`req.query.instanceID`. -/
def statusHandler (env : Env) (instanceID : JsVal) : Eff Unit := do
  try
    let describeInstancesResponse ← await (.ec2DescribeInstances [instanceID])
      (env.describeInstances [instanceID])
    let publicIp ← evaluate (firstPublicIp describeInstancesResponse)
    emit (.resJson (.obj [("status", .str "Deployment Complete!"), ("projectUrl", publicIp)]))
  catch error =>
    emit (.consoleLog [.err error])
    emit (.resJson (.err error))

/-! ## Observations on a trace -/

/-- Console output is internal to the server; every other event is visible
outside it. -/
def Event.isConsole : Event → Bool
  | .consoleLog _ => true
  | .consoleError _ => true
  | _ => false

/-- The externally visible effects of a run, in order. -/
def externalEffects (t : List Event) : List Event := t.filter (fun ev => !ev.isConsole)

/-- The bodies sent to the caller with `res.json`, in order. -/
def responses (t : List Event) : List JsVal :=
  t.filterMap (fun ev => match ev with | .resJson b => some b | _ => none)

/-- The arguments of the instance-creation calls, in order. -/
def createCalls (t : List Event) : List InstanceParams :=
  t.filterMap (fun ev => match ev with | .ec2RunInstances p => some p | _ => none)

/-- The instance-id lists of the describe calls, in order. -/
def describeCalls (t : List Event) : List (List JsVal) :=
  t.filterMap (fun ev => match ev with | .ec2DescribeInstances ids => some ids | _ => none)

/-- The script the deploy handler builds for a request body. -/
def scriptOf (env : Env) (body : ReqBody) : Except JsErr String :=
  userDataScript env.generateSlug body.gitURL body.rootDirectory
    body.buildCommand body.startCommand body.envVariables

/-- The events of a deploy run up to and including the sleep, when creation
answered with instance id `i`, printed as `txt`. -/
def deployHead (env : Env) (i : JsVal) (txt : String) : List Event :=
  [.consoleLog [.str "Creating machine"],
   .ec2RunInstances (instanceParams env.generateSlug),
   .consoleLog [.str ("Instance created with ID: " ++ txt)],
   .resJson (deployResponse env.generateSlug i),
   .setTimeout 180000]

/-- The `console.error` of the catch block of the deploy handler. -/
def caught (e : JsErr) : Event :=
  .consoleError [.str "Error creating or setting up EC2 instance:", .err e]

/-- Two deploy requests with the same body, handled one after the other. -/
def deployTwice (env1 env2 : Env) (body : ReqBody) : Eff Unit := do
  deployHandler env1 body
  deployHandler env2 body

/-! ## The specification side -/

/-- The setup script as the specification describes it: the lines of the fixed
template, in order, with the slug `s` and the request strings substituted as
they are. -/
def setupSteps (s gitURL rootDirectory buildCommand startCommand envVariables : String) :
    List String :=
  [ "",
    "#!/bin/bash",
    "",
    "# Update the system and install required packages",
    "sudo yum update -y",
    "sudo yum install -y git",
    "",
    "# Clone the repository",
    "git clone " ++ gitURL ++ " /home/" ++ s ++ "/app",
    "",
    "# Navigate to the app directory",
    "cd /home/" ++ s ++ "/app/" ++ rootDirectory,
    "",
    "# Create a .env file if environment variables are provided",
    "if [ ! -z \"" ++ envVariables ++ "\" ]; then",
    "    echo \"Creating .env file with provided environment variables\"",
    "    cat <<EOT > .env",
    envVariables,
    "EOT",
    "fi",
    "",
    "# Node.js setup",
    "echo \"Setting up Node.js project\"",
    "curl -sL https://rpm.nodesource.com/setup_16.x | sudo -E bash -",
    "sudo yum install -y nodejs",
    "sudo npm install -g yarn",
    "",
    "# Run user-specified build command",
    "if [ ! -z \"" ++ buildCommand ++ "\" ]; then",
    "    echo \"Running build command\"",
    "    " ++ buildCommand,
    "fi",
    "",
    "# Start the application",
    "echo \"Starting the application with start command\"",
    "nohup " ++ startCommand ++ " > /home/" ++ s ++ "/app/logs.log 2>&1 &",
    "" ]

/-- The success shape of a status response carrying `projectUrl`. -/
def statusSuccess (projectUrl : JsVal) : JsVal :=
  .obj [("status", .str "Deployment Complete!"), ("projectUrl", projectUrl)]

/-- A describe answer that holds no instance: no reservation list, an empty
one, or a first reservation without an instance. -/
def noInstance (r : DescribeInstancesOutput) : Bool :=
  match r.Reservations with
  | none => true
  | some [] => true
  | some (x :: _) =>
    match x.Instances with
    | none => true
    | some [] => true
    | some (_ :: _) => false

/-- The instance id is unknown to the provider: the describe call is rejected,
or its answer holds no instance. -/
def unknownInstance (env : Env) (q : JsVal) : Bool :=
  match env.describeInstances [q] with
  | .error _ => true
  | .ok r => noInstance r

/-! ## Example environments -/

/-- A request body whose `buildCommand` is a JSON object with an own `toString`
property. -/
def objectFieldBody : ReqBody :=
  { gitURL := .str "https://github.com/acme/shop.git",
    framework := .str "express",
    rootDirectory := .str "server",
    buildCommand := .obj [("toString", .str "x")],
    startCommand := .str "npm start",
    envVariables := .str "PORT=3000" }

/-- A request body with string fields. -/
def exampleBody : ReqBody :=
  { gitURL := .str "https://github.com/acme/shop.git",
    framework := .str "express",
    rootDirectory := .str "server",
    buildCommand := .str "npm run build",
    startCommand := .str "npm start",
    envVariables := .str "PORT=3000" }

/-- A provider that accepts every call: creation answers with instance id
`iid`, describe answers with one instance whose address is `ip`. -/
def acceptingEnv (slug iid : String) (ip : Option String) : Env :=
  { generateSlug := slug,
    runInstances := fun _ => .ok { Instances := some [{ InstanceId := some iid, PublicIpAddress := none }] },
    sendCommand := fun _ => .ok (),
    describeInstances := fun _ =>
      .ok { Reservations := some [{ Instances := some [{ InstanceId := some iid, PublicIpAddress := ip }] }] } }

/-- A provider that rejects instance creation. -/
def rejectingEnv (slug : String) : Env :=
  { generateSlug := slug,
    runInstances := fun _ =>
      .error { name := "InstanceLimitExceeded", message := "You have requested more instances than your current limit allows" },
    sendCommand := fun _ => .ok (),
    describeInstances := fun _ => .ok { Reservations := some [] } }

/-- A provider that creates the instance but rejects the script dispatch and
the describe call. -/
def dispatchFailingEnv (slug iid : String) : Env :=
  { generateSlug := slug,
    runInstances := fun _ => .ok { Instances := some [{ InstanceId := some iid, PublicIpAddress := none }] },
    sendCommand := fun _ =>
      .error { name := "InvalidInstanceId", message := "Instances not in a valid state for account" },
    describeInstances := fun _ =>
      .error { name := "RequestLimitExceeded", message := "Request limit exceeded." } }

/-- A provider that does not know the queried instance id. -/
def unknownIdEnv : Env :=
  { generateSlug := "unused",
    runInstances := fun _ => .ok { Instances := none },
    sendCommand := fun _ => .ok (),
    describeInstances := fun _ =>
      .error { name := "InvalidInstanceID.NotFound", message := "The instance ID does not exist" } }

/-! ## Runs of the deploy handler, case by case -/

set_option maxRecDepth 100000

theorem deploy_create_rejected (env : Env) (body : ReqBody) (e : JsErr)
    (h : env.runInstances (instanceParams env.generateSlug) = .error e) :
    deployHandler env body =
      ⟨[.consoleLog [.str "Creating machine"],
        .ec2RunInstances (instanceParams env.generateSlug), caught e], .ok ()⟩ := by
  simp only [deployHandler, bind, Eff.bind, tryCatch, tryCatchThe, MonadExcept.tryCatch,
    Eff.tryCatch, emit, await, evaluate, h]
  rfl

theorem deploy_create_malformed (env : Env) (body : ReqBody) (d : RunInstancesOutput)
    (e : JsErr)
    (h : env.runInstances (instanceParams env.generateSlug) = .ok d)
    (h2 : firstInstanceId d = .error e) :
    deployHandler env body =
      ⟨[.consoleLog [.str "Creating machine"],
        .ec2RunInstances (instanceParams env.generateSlug), caught e], .ok ()⟩ := by
  simp only [deployHandler, bind, Eff.bind, tryCatch, tryCatchThe, MonadExcept.tryCatch,
    Eff.tryCatch, emit, await, evaluate, h, h2]
  rfl

/-- The instance id read from a creation answer is `undefined` or a string:
printing it does not throw. -/
theorem firstInstanceId_tpl (d : RunInstancesOutput) (i : JsVal)
    (h : firstInstanceId d = .ok i) : ∃ txt, tpl i = .ok txt := by
  obtain ⟨insts⟩ := d
  cases insts with
  | none => cases h
  | some l =>
    cases l with
    | nil => cases h
    | cons x xs =>
      obtain ⟨iid, ip⟩ := x
      cases iid with
      | none => cases h; exact ⟨_, rfl⟩
      | some v => cases h; exact ⟨_, rfl⟩

theorem deploy_script_throws (env : Env) (body : ReqBody) (d : RunInstancesOutput)
    (i : JsVal) (txt : String) (e : JsErr)
    (h : env.runInstances (instanceParams env.generateSlug) = .ok d)
    (h2 : firstInstanceId d = .ok i)
    (ht : tpl i = .ok txt)
    (hs : scriptOf env body = .error e) :
    deployHandler env body = ⟨deployHead env i txt ++ [caught e], .ok ()⟩ := by
  simp only [scriptOf] at hs
  simp only [deployHandler, bind, Eff.bind, tryCatch, tryCatchThe, MonadExcept.tryCatch,
    Eff.tryCatch, emit, await, evaluate, h, h2, ht, hs]
  rfl

theorem deploy_dispatch_rejected (env : Env) (body : ReqBody) (d : RunInstancesOutput)
    (i : JsVal) (txt sc : String) (e : JsErr)
    (h : env.runInstances (instanceParams env.generateSlug) = .ok d)
    (h2 : firstInstanceId d = .ok i)
    (ht : tpl i = .ok txt)
    (hs : scriptOf env body = .ok sc)
    (h3 : env.sendCommand (ssmCommandParams sc i) = .error e) :
    deployHandler env body =
      ⟨deployHead env i txt ++ [.ssmSendCommand (ssmCommandParams sc i), caught e], .ok ()⟩ := by
  simp only [scriptOf] at hs
  simp only [deployHandler, bind, Eff.bind, tryCatch, tryCatchThe, MonadExcept.tryCatch,
    Eff.tryCatch, emit, await, evaluate, h, h2, ht, hs, h3]
  rfl

theorem deploy_describe_rejected (env : Env) (body : ReqBody) (d : RunInstancesOutput)
    (i : JsVal) (txt sc : String) (e : JsErr)
    (h : env.runInstances (instanceParams env.generateSlug) = .ok d)
    (h2 : firstInstanceId d = .ok i)
    (ht : tpl i = .ok txt)
    (hs : scriptOf env body = .ok sc)
    (h3 : env.sendCommand (ssmCommandParams sc i) = .ok ())
    (h4 : env.describeInstances [i] = .error e) :
    deployHandler env body = ⟨deployHead env i txt ++
      [.ssmSendCommand (ssmCommandParams sc i),
       .consoleLog [.str ("Commands sent to EC2 instance with ID: " ++ txt)],
       .ec2DescribeInstances [i], caught e], .ok ()⟩ := by
  simp only [scriptOf] at hs
  simp only [deployHandler, bind, Eff.bind, tryCatch, tryCatchThe, MonadExcept.tryCatch,
    Eff.tryCatch, emit, await, evaluate, h, h2, ht, hs, h3, h4]
  rfl

theorem deploy_describe_malformed (env : Env) (body : ReqBody) (d : RunInstancesOutput)
    (i : JsVal) (txt sc : String) (r : DescribeInstancesOutput) (e : JsErr)
    (h : env.runInstances (instanceParams env.generateSlug) = .ok d)
    (h2 : firstInstanceId d = .ok i)
    (ht : tpl i = .ok txt)
    (hs : scriptOf env body = .ok sc)
    (h3 : env.sendCommand (ssmCommandParams sc i) = .ok ())
    (h4 : env.describeInstances [i] = .ok r)
    (h5 : firstPublicIp r = .error e) :
    deployHandler env body = ⟨deployHead env i txt ++
      [.ssmSendCommand (ssmCommandParams sc i),
       .consoleLog [.str ("Commands sent to EC2 instance with ID: " ++ txt)],
       .ec2DescribeInstances [i], caught e], .ok ()⟩ := by
  simp only [scriptOf] at hs
  simp only [deployHandler, bind, Eff.bind, tryCatch, tryCatchThe, MonadExcept.tryCatch,
    Eff.tryCatch, emit, await, evaluate, h, h2, ht, hs, h3, h4, h5]
  rfl

theorem deploy_complete (env : Env) (body : ReqBody) (d : RunInstancesOutput)
    (i : JsVal) (txt sc : String) (r : DescribeInstancesOutput) (ip : JsVal)
    (h : env.runInstances (instanceParams env.generateSlug) = .ok d)
    (h2 : firstInstanceId d = .ok i)
    (ht : tpl i = .ok txt)
    (hs : scriptOf env body = .ok sc)
    (h3 : env.sendCommand (ssmCommandParams sc i) = .ok ())
    (h4 : env.describeInstances [i] = .ok r)
    (h5 : firstPublicIp r = .ok ip) :
    deployHandler env body = ⟨deployHead env i txt ++
      [.ssmSendCommand (ssmCommandParams sc i),
       .consoleLog [.str ("Commands sent to EC2 instance with ID: " ++ txt)],
       .ec2DescribeInstances [i], .consoleLog [ip]], .ok ()⟩ := by
  simp only [scriptOf] at hs
  simp only [deployHandler, bind, Eff.bind, tryCatch, tryCatchThe, MonadExcept.tryCatch,
    Eff.tryCatch, emit, await, evaluate, h, h2, ht, hs, h3, h4, h5]
  rfl

/-- Once creation has answered with instance id `i`, the run has the shape
`deployHead ++ tail` where the tail holds no response and no creation call, and
nothing is thrown. -/
theorem deploy_after_creation (env : Env) (body : ReqBody) (d : RunInstancesOutput)
    (i : JsVal)
    (h : env.runInstances (instanceParams env.generateSlug) = .ok d)
    (h2 : firstInstanceId d = .ok i) :
    ∃ txt tail, deployHandler env body = ⟨deployHead env i txt ++ tail, .ok ()⟩ ∧
      responses tail = [] ∧ createCalls tail = [] := by
  obtain ⟨txt, ht⟩ := firstInstanceId_tpl d i h2
  refine ⟨txt, ?_⟩
  cases hs : scriptOf env body with
  | error e => exact ⟨_, deploy_script_throws env body d i txt e h h2 ht hs, rfl, rfl⟩
  | ok sc =>
    cases h3 : env.sendCommand (ssmCommandParams sc i) with
    | error e =>
      exact ⟨_, deploy_dispatch_rejected env body d i txt sc e h h2 ht hs h3, rfl, rfl⟩
    | ok u =>
      cases h4 : env.describeInstances [i] with
      | error e =>
        exact ⟨_, deploy_describe_rejected env body d i txt sc e h h2 ht hs h3 h4, rfl, rfl⟩
      | ok r =>
        cases h5 : firstPublicIp r with
        | error e =>
          exact ⟨_, deploy_describe_malformed env body d i txt sc r e h h2 ht hs h3 h4 h5,
            rfl, rfl⟩
        | ok ip =>
          exact ⟨_, deploy_complete env body d i txt sc r ip h h2 ht hs h3 h4 h5, rfl, rfl⟩

theorem responses_append (a b : List Event) :
    responses (a ++ b) = responses a ++ responses b := by
  simp [responses, List.filterMap_append]

theorem createCalls_append (a b : List Event) :
    createCalls (a ++ b) = createCalls a ++ createCalls b := by
  simp [createCalls, List.filterMap_append]

theorem firstInstanceId_cons (inst : Instance) (is : List Instance) :
    firstInstanceId ⟨some (inst :: is)⟩ = .ok (JsVal.ofOption inst.InstanceId) := rfl

theorem firstPublicIp_cons (inst : Instance) (is : List Instance) (rs : List Reservation) :
    firstPublicIp ⟨some (⟨some (inst :: is)⟩ :: rs)⟩
      = .ok (JsVal.ofOption inst.PublicIpAddress) := rfl

theorem deploy_createCalls (env : Env) (body : ReqBody) :
    createCalls (deployHandler env body).trace = [instanceParams env.generateSlug] := by
  cases h : env.runInstances (instanceParams env.generateSlug) with
  | error e => rw [deploy_create_rejected env body e h]; rfl
  | ok d =>
    cases h2 : firstInstanceId d with
    | error e => rw [deploy_create_malformed env body d e h h2]; rfl
    | ok i =>
      obtain ⟨txt, tail, hrun, _, hcreate⟩ := deploy_after_creation env body d i h h2
      rw [hrun]
      show createCalls (deployHead env i txt ++ tail) = _
      rw [createCalls_append, hcreate]
      rfl

theorem deploy_responses (env : Env) (body : ReqBody) (d : RunInstancesOutput) (i : JsVal)
    (h : env.runInstances (instanceParams env.generateSlug) = .ok d)
    (h2 : firstInstanceId d = .ok i) :
    responses (deployHandler env body).trace = [deployResponse env.generateSlug i] := by
  obtain ⟨txt, tail, hrun, hresp, _⟩ := deploy_after_creation env body d i h h2
  rw [hrun]
  show responses (deployHead env i txt ++ tail) = _
  rw [responses_append, hresp]
  rfl

theorem deploy_result (env : Env) (body : ReqBody) :
    (deployHandler env body).result = .ok () := by
  cases h : env.runInstances (instanceParams env.generateSlug) with
  | error e => rw [deploy_create_rejected env body e h]
  | ok d =>
    cases h2 : firstInstanceId d with
    | error e => rw [deploy_create_malformed env body d e h h2]
    | ok i =>
      obtain ⟨_, tail, hrun, _, _⟩ := deploy_after_creation env body d i h h2
      rw [hrun]

theorem deployTwice_trace (env1 env2 : Env) (body : ReqBody) :
    (deployTwice env1 env2 body).trace
      = (deployHandler env1 body).trace ++ (deployHandler env2 body).trace := by
  simp only [deployTwice, bind, Eff.bind, deploy_result]

/-! ## Runs of the status handler, case by case -/

theorem status_describe_rejected (env : Env) (q : JsVal) (e : JsErr)
    (h : env.describeInstances [q] = .error e) :
    statusHandler env q =
      ⟨[.ec2DescribeInstances [q], .consoleLog [.err e], .resJson (.err e)], .ok ()⟩ := by
  simp only [statusHandler, bind, Eff.bind, tryCatch, tryCatchThe, MonadExcept.tryCatch,
    Eff.tryCatch, emit, await, evaluate, h]
  rfl

theorem status_describe_malformed (env : Env) (q : JsVal) (r : DescribeInstancesOutput)
    (e : JsErr)
    (h : env.describeInstances [q] = .ok r)
    (h2 : firstPublicIp r = .error e) :
    statusHandler env q =
      ⟨[.ec2DescribeInstances [q], .consoleLog [.err e], .resJson (.err e)], .ok ()⟩ := by
  simp only [statusHandler, bind, Eff.bind, tryCatch, tryCatchThe, MonadExcept.tryCatch,
    Eff.tryCatch, emit, await, evaluate, h, h2]
  rfl

theorem status_complete (env : Env) (q : JsVal) (r : DescribeInstancesOutput) (ip : JsVal)
    (h : env.describeInstances [q] = .ok r)
    (h2 : firstPublicIp r = .ok ip) :
    statusHandler env q =
      ⟨[.ec2DescribeInstances [q], .resJson (statusSuccess ip)], .ok ()⟩ := by
  simp only [statusHandler, bind, Eff.bind, tryCatch, tryCatchThe, MonadExcept.tryCatch,
    Eff.tryCatch, emit, await, evaluate, h, h2]
  rfl

theorem firstPublicIp_noInstance (r : DescribeInstancesOutput) (h : noInstance r = true) :
    ∃ prop, firstPublicIp r = .error (typeError prop) := by
  obtain ⟨rs⟩ := r
  cases rs with
  | none => exact ⟨"0", rfl⟩
  | some l =>
    cases l with
    | nil => exact ⟨"Instances", rfl⟩
    | cons x xs =>
      obtain ⟨is⟩ := x
      cases is with
      | none => exact ⟨"0", rfl⟩
      | some l2 =>
        cases l2 with
        | nil => exact ⟨"PublicIpAddress", rfl⟩
        | cons y ys => simp [noInstance] at h

/-! ## The setup script -/

/-- C1: for string request fields the setup script is built without a throw and
is the fixed template with the slug and the request strings inserted as they
are, its lines in the order yum update, git install, clone, cd, guarded heredoc
write of the environment block, Node.js and yarn installation, guarded build
command (indented by four blanks), detached start command; for the example
request the heredoc body `PORT=3000`, the build line and the `nohup` line occur
in that order. -/
theorem userDataScript_template (s g r b st e : String) :
    userDataScript s (.str g) (.str r) (.str b) (.str st) (.str e)
        = .ok (String.intercalate "\n" (setupSteps s g r b st e))
    ∧ ∃ p q t : String,
        userDataScript s (.str g) (.str r) (.str "npm run build") (.str "npm start")
            (.str "PORT=3000")
          = .ok (p ++ "    cat <<EOT > .env\nPORT=3000\nEOT\nfi\n" ++ q
              ++ "\n    npm run build\nfi\n" ++ t
              ++ "\nnohup npm start > /home/" ++ s ++ "/app/logs.log 2>&1 &\n") := by
  refine ⟨?_, ?_⟩
  · simp only [userDataScript, tpl, bind, Except.bind, pure, Except.pure]
    apply congrArg Except.ok
    apply String.ext
    simp only [setupSteps, String.intercalate, String.intercalate.go,
      String.data_append, List.append_assoc]
    rfl
  · refine ⟨"\n#!/bin/bash\n\n# Update the system and install required packages\nsudo yum update -y\nsudo yum install -y git\n\n# Clone the repository\ngit clone "
        ++ g ++ " /home/" ++ s ++ "/app\n\n# Navigate to the app directory\ncd /home/" ++ s
        ++ "/app/" ++ r
        ++ "\n\n# Create a .env file if environment variables are provided\nif [ ! -z \"PORT=3000\" ]; then\n    echo \"Creating .env file with provided environment variables\"\n",
      "\n# Node.js setup\necho \"Setting up Node.js project\"\ncurl -sL https://rpm.nodesource.com/setup_16.x | sudo -E bash -\nsudo yum install -y nodejs\nsudo npm install -g yarn\n\n# Run user-specified build command\nif [ ! -z \"npm run build\" ]; then\n    echo \"Running build command\"",
      "\n# Start the application\necho \"Starting the application with start command\"", ?_⟩
    simp only [userDataScript, tpl, bind, Except.bind, pure, Except.pure]
    apply congrArg Except.ok
    apply String.ext
    simp only [String.data_append, List.append_assoc]
    rfl

/-! ## The deploy handler -/

/-- C2: the externally visible effects of a deploy run are, in this order,
create instance, send the response, sleep 180000 ms, dispatch the setup script
to the created instance id, describe that instance, cut after the first step
that fails (a throw while the script text is built counts as a failed
dispatch); the response precedes the sleep, the dispatch and the inspection. -/
theorem deployHandler_effect_order (env : Env) (body : ReqBody) :
    externalEffects (deployHandler env body).trace =
      match env.runInstances (instanceParams env.generateSlug) with
      | .error _ => [.ec2RunInstances (instanceParams env.generateSlug)]
      | .ok d =>
        match firstInstanceId d with
        | .error _ => [.ec2RunInstances (instanceParams env.generateSlug)]
        | .ok i =>
          [.ec2RunInstances (instanceParams env.generateSlug),
           .resJson (deployResponse env.generateSlug i),
           .setTimeout 180000] ++
          match userDataScript env.generateSlug body.gitURL body.rootDirectory
              body.buildCommand body.startCommand body.envVariables with
          | .error _ => []
          | .ok script =>
            [.ssmSendCommand
              { DocumentName := "AWS-RunShellScript",
                commands := [script],
                InstanceIds := [i] }] ++
            match env.sendCommand
                { DocumentName := "AWS-RunShellScript",
                  commands := [script],
                  InstanceIds := [i] } with
            | .error _ => []
            | .ok _ => [.ec2DescribeInstances [i]] := by
  cases h : env.runInstances (instanceParams env.generateSlug) with
  | error e => rw [deploy_create_rejected env body e h]; rfl
  | ok d =>
    dsimp only
    cases h2 : firstInstanceId d with
    | error e => rw [deploy_create_malformed env body d e h h2]; rfl
    | ok i =>
      dsimp only
      obtain ⟨txt, ht⟩ := firstInstanceId_tpl d i h2
      cases hs : userDataScript env.generateSlug body.gitURL body.rootDirectory
          body.buildCommand body.startCommand body.envVariables with
      | error e => rw [deploy_script_throws env body d i txt e h h2 ht hs]; rfl
      | ok sc =>
        dsimp only
        cases h3 : env.sendCommand
            { DocumentName := "AWS-RunShellScript", commands := [sc], InstanceIds := [i] } with
        | error e => rw [deploy_dispatch_rejected env body d i txt sc e h h2 ht hs h3]; rfl
        | ok u =>
          cases h4 : env.describeInstances [i] with
          | error e =>
            rw [deploy_describe_rejected env body d i txt sc e h h2 ht hs h3 h4]; rfl
          | ok r =>
            cases h5 : firstPublicIp r with
            | error e =>
              rw [deploy_describe_malformed env body d i txt sc r e h h2 ht hs h3 h4 h5]; rfl
            | ok ip =>
              rw [deploy_complete env body d i txt sc r ip h h2 ht hs h3 h4 h5]; rfl

/-- A request whose `buildCommand` is the JSON object `{"toString": "x"}`: the
template literal throws after the sleep, so the run has three external effects
and neither dispatches nor describes. -/
theorem deploy_object_field_stops_after_sleep :
    externalEffects (deployHandler (acceptingEnv "brave-red-fox" "i-0abc123" none)
        objectFieldBody).trace
      = [.ec2RunInstances (instanceParams "brave-red-fox"),
         .resJson (deployResponse "brave-red-fox" (.str "i-0abc123")),
         .setTimeout 180000]
    ∧ (deployHandler (acceptingEnv "brave-red-fox" "i-0abc123" none) objectFieldBody).trace.getLast?
      = some (caught notPrimitive) :=
  ⟨rfl, rfl⟩

/-- C3 (as the code has it): when creation succeeds with instance id `i` and the
slug is `s`, the single response body is
`{status: "Deploying", data: {projectSlug: s, url: "IP address yet to be assigned", instance_ID: i}}`. -/
theorem deploy_response_body (env : Env) (body : ReqBody) (i : String)
    (ip : Option String) (is : List Instance)
    (h : env.runInstances (instanceParams env.generateSlug)
      = .ok ⟨some (⟨some i, ip⟩ :: is)⟩) :
    responses (deployHandler env body).trace =
      [.obj [("status", .str "Deploying"),
             ("data", .obj [("projectSlug", .str env.generateSlug),
                            ("url", .str "IP address yet to be assigned"),
                            ("instance_ID", .str i)])]] := by
  rw [deploy_responses env body _ (.str i) h (firstInstanceId_cons ⟨some i, ip⟩ is)]
  rfl

/-- Witness of C3 as amended: a provider that creates instance `i-0abc123`
under the slug `brave-red-fox`. -/
theorem deploy_response_body_witness :
    (acceptingEnv "brave-red-fox" "i-0abc123" none).runInstances
        (instanceParams (acceptingEnv "brave-red-fox" "i-0abc123" none).generateSlug)
      = .ok ⟨some (⟨some "i-0abc123", none⟩ :: [])⟩
    ∧ responses (deployHandler (acceptingEnv "brave-red-fox" "i-0abc123" none) exampleBody).trace =
      [.obj [("status", .str "Deploying"),
             ("data", .obj [("projectSlug", .str "brave-red-fox"),
                            ("url", .str "IP address yet to be assigned"),
                            ("instance_ID", .str "i-0abc123")])]] :=
  ⟨rfl, deploy_response_body (acceptingEnv "brave-red-fox" "i-0abc123" none) exampleBody
    "i-0abc123" none [] rfl⟩

/-- C3 as stated fails: for slug `brave-red-fox` and created instance
`i-0abc123` the response body has `status` "Deploying" but neither an
`identifier` nor an `instanceId` field; both read as `undefined`. -/
theorem deploy_response_has_no_identifier_field :
    (responses (deployHandler (acceptingEnv "brave-red-fox" "i-0abc123" none) exampleBody).trace).map
        (fun b => (b.get "status", b.get "identifier", b.get "instanceId",
          b.hasKey "identifier", b.hasKey "instanceId"))
      = [(.str "Deploying", .undefined, .undefined, false, false)] := rfl

/-- C4 fails on the code: when the provider rejects the creation call the
handler logs the error and sends no response at all. -/
theorem deploy_rejected_creation_sends_no_response :
    (deployHandler (rejectingEnv "brave-red-fox") exampleBody).trace =
      [.consoleLog [.str "Creating machine"],
       .ec2RunInstances (instanceParams "brave-red-fox"),
       .consoleError [.str "Error creating or setting up EC2 instance:",
         .err { name := "InstanceLimitExceeded",
                message := "You have requested more instances than your current limit allows" }]]
    ∧ responses (deployHandler (rejectingEnv "brave-red-fox") exampleBody).trace = []
    ∧ (deployHandler (rejectingEnv "brave-red-fox") exampleBody).result = .ok () :=
  ⟨rfl, rfl, rfl⟩

/-- C5: two deploy runs with the same slug and the same successful creation
answer send exactly one response each, the same one, whatever the script
dispatch and the final inspection answer, and neither run throws. -/
theorem deploy_later_failures_unobservable (env1 env2 : Env) (body : ReqBody)
    (d : RunInstancesOutput) (i : JsVal)
    (hs : env2.generateSlug = env1.generateSlug)
    (h1 : env1.runInstances (instanceParams env1.generateSlug) = .ok d)
    (h2 : env2.runInstances (instanceParams env2.generateSlug) = .ok d)
    (hi : firstInstanceId d = .ok i) :
    responses (deployHandler env1 body).trace = [deployResponse env1.generateSlug i]
    ∧ responses (deployHandler env2 body).trace = responses (deployHandler env1 body).trace
    ∧ (deployHandler env1 body).result = .ok ()
    ∧ (deployHandler env2 body).result = .ok () := by
  have e1 := deploy_responses env1 body d i h1 hi
  have e2 := deploy_responses env2 body d i h2 hi
  rw [hs] at e2
  exact ⟨e1, e2.trans e1.symm, deploy_result env1 body, deploy_result env2 body⟩

/-- Witness of C5: one run in which dispatch and inspection succeed, one in
which the dispatch is rejected. -/
theorem deploy_later_failures_unobservable_witness :
    responses (deployHandler (acceptingEnv "brave-red-fox" "i-0abc123" none) exampleBody).trace
      = [deployResponse "brave-red-fox" (.str "i-0abc123")]
    ∧ responses (deployHandler (dispatchFailingEnv "brave-red-fox" "i-0abc123") exampleBody).trace
      = responses (deployHandler (acceptingEnv "brave-red-fox" "i-0abc123" none) exampleBody).trace
    ∧ (deployHandler (acceptingEnv "brave-red-fox" "i-0abc123" none) exampleBody).result = .ok ()
    ∧ (deployHandler (dispatchFailingEnv "brave-red-fox" "i-0abc123") exampleBody).result = .ok () :=
  deploy_later_failures_unobservable (acceptingEnv "brave-red-fox" "i-0abc123" none)
    (dispatchFailingEnv "brave-red-fox" "i-0abc123") exampleBody
    ⟨some [⟨some "i-0abc123", none⟩]⟩ (.str "i-0abc123") rfl rfl rfl rfl

/-- C9: the creation request of every deploy run is the fixed image, size,
security group, counts and instance profile with the two tags Project and
Name = slug; it is the same for every request body. -/
theorem deploy_creation_request_fixed (env : Env) (body : ReqBody) :
    createCalls (deployHandler env body).trace =
      [{ ImageId := "ami-0a51a22a987dc45fd",
         InstanceType := "t2.micro",
         SecurityGroupIds := ["sg-0b34e34d59a58cb23"],
         MinCount := 1,
         MaxCount := 1,
         TagSpecifications := [
           { ResourceType := "instance",
             Tags := [{ Key := "Project", Value := "DynamicDeployment" },
                      { Key := "Name", Value := env.generateSlug }] }],
         IamInstanceProfile := { Name := "AmazonEC2RoleforSSM" } }]
    ∧ ∀ other : ReqBody,
        createCalls (deployHandler env other).trace = createCalls (deployHandler env body).trace := by
  refine ⟨?_, ?_⟩
  · rw [deploy_createCalls env body]; rfl
  · intro other
    rw [deploy_createCalls env other, deploy_createCalls env body]

/-- C10: two deploy invocations with the same body issue two creation calls,
one per invocation and each for its own slug; when the two slugs differ and the
provider answers with two different instance ids, the two responses carry
different identifiers and different instance ids. -/
theorem deploy_no_deduplication (env1 env2 : Env) (body : ReqBody) :
    createCalls (deployHandler env1 body).trace = [instanceParams env1.generateSlug]
    ∧ createCalls (deployTwice env1 env2 body).trace
        = [instanceParams env1.generateSlug, instanceParams env2.generateSlug]
    ∧ ∀ (i1 i2 : String) (ip1 ip2 : Option String) (is1 is2 : List Instance),
        env1.runInstances (instanceParams env1.generateSlug)
          = .ok ⟨some (⟨some i1, ip1⟩ :: is1)⟩ →
        env2.runInstances (instanceParams env2.generateSlug)
          = .ok ⟨some (⟨some i2, ip2⟩ :: is2)⟩ →
        env1.generateSlug ≠ env2.generateSlug → i1 ≠ i2 →
        ∃ r1 r2, responses (deployTwice env1 env2 body).trace = [r1, r2]
          ∧ (r1.get "data").get "projectSlug" = .str env1.generateSlug
          ∧ (r2.get "data").get "projectSlug" = .str env2.generateSlug
          ∧ (r1.get "data").get "instance_ID" = .str i1
          ∧ (r2.get "data").get "instance_ID" = .str i2
          ∧ (r1.get "data").get "projectSlug" ≠ (r2.get "data").get "projectSlug"
          ∧ (r1.get "data").get "instance_ID" ≠ (r2.get "data").get "instance_ID" := by
  refine ⟨deploy_createCalls env1 body, ?_, ?_⟩
  · rw [deployTwice_trace, createCalls_append, deploy_createCalls, deploy_createCalls]
    rfl
  · intro i1 i2 ip1 ip2 is1 is2 h1 h2 hs hi
    refine ⟨deployResponse env1.generateSlug (.str i1),
      deployResponse env2.generateSlug (.str i2), ?_, rfl, rfl, rfl, rfl, ?_, ?_⟩
    · rw [deployTwice_trace, responses_append,
        deploy_responses env1 body _ (.str i1) h1 (firstInstanceId_cons ⟨some i1, ip1⟩ is1),
        deploy_responses env2 body _ (.str i2) h2 (firstInstanceId_cons ⟨some i2, ip2⟩ is2)]
      rfl
    · intro h
      exact hs (JsVal.str.inj h)
    · intro h
      exact hi (JsVal.str.inj h)

/-- Witness of C10: the same body deployed twice, with slugs `brave-red-fox`
and `calm-blue-owl` and instance ids `i-0abc123` and `i-0def456`. -/
theorem deploy_no_deduplication_witness :
    createCalls (deployTwice (acceptingEnv "brave-red-fox" "i-0abc123" none)
        (acceptingEnv "calm-blue-owl" "i-0def456" none) exampleBody).trace
      = [instanceParams "brave-red-fox", instanceParams "calm-blue-owl"]
    ∧ ∃ r1 r2, responses (deployTwice (acceptingEnv "brave-red-fox" "i-0abc123" none)
          (acceptingEnv "calm-blue-owl" "i-0def456" none) exampleBody).trace = [r1, r2]
        ∧ (r1.get "data").get "projectSlug" = .str "brave-red-fox"
        ∧ (r2.get "data").get "projectSlug" = .str "calm-blue-owl"
        ∧ (r1.get "data").get "instance_ID" = .str "i-0abc123"
        ∧ (r2.get "data").get "instance_ID" = .str "i-0def456"
        ∧ (r1.get "data").get "projectSlug" ≠ (r2.get "data").get "projectSlug"
        ∧ (r1.get "data").get "instance_ID" ≠ (r2.get "data").get "instance_ID" :=
  ⟨(deploy_no_deduplication (acceptingEnv "brave-red-fox" "i-0abc123" none)
      (acceptingEnv "calm-blue-owl" "i-0def456" none) exampleBody).2.1,
   (deploy_no_deduplication (acceptingEnv "brave-red-fox" "i-0abc123" none)
      (acceptingEnv "calm-blue-owl" "i-0def456" none) exampleBody).2.2
      "i-0abc123" "i-0def456" none none [] [] rfl rfl (by decide) (by decide)⟩

/-! ## The status handler -/

/-- C6: a status run makes exactly one describe call, for the list `[q]`; the
whole run is determined by the answer to that call, so nothing is kept between
calls; and when the answer has a first reservation whose first instance has
public address `a` (possibly absent) the run is that call followed by the
single response `{status: "Deployment Complete!", projectUrl: a}`. -/
theorem status_single_describe (env : Env) (q : JsVal) :
    describeCalls (statusHandler env q).trace = [[q]]
    ∧ (∀ env2 : Env, env2.describeInstances [q] = env.describeInstances [q] →
        statusHandler env2 q = statusHandler env q)
    ∧ ∀ (inst : Instance) (is : List Instance) (rs : List Reservation),
        env.describeInstances [q] = .ok ⟨some (⟨some (inst :: is)⟩ :: rs)⟩ →
        (statusHandler env q).trace =
          [.ec2DescribeInstances [q],
           .resJson (.obj [("status", .str "Deployment Complete!"),
                           ("projectUrl", JsVal.ofOption inst.PublicIpAddress)])] := by
  have run : ∀ (en : Env) (x : Except JsErr DescribeInstancesOutput),
      en.describeInstances [q] = x →
      statusHandler en q =
        match x with
        | .error e => ⟨[.ec2DescribeInstances [q], .consoleLog [.err e], .resJson (.err e)], .ok ()⟩
        | .ok r =>
          match firstPublicIp r with
          | .error e =>
            ⟨[.ec2DescribeInstances [q], .consoleLog [.err e], .resJson (.err e)], .ok ()⟩
          | .ok ip => ⟨[.ec2DescribeInstances [q], .resJson (statusSuccess ip)], .ok ()⟩ := by
    intro en x hx
    cases x with
    | error e => exact status_describe_rejected en q e hx
    | ok r =>
      dsimp only
      cases h2 : firstPublicIp r with
      | error e => exact status_describe_malformed en q r e hx h2
      | ok ip => exact status_complete en q r ip hx h2
  refine ⟨?_, ?_, ?_⟩
  · rw [run env _ rfl]
    cases env.describeInstances [q] with
    | error e => rfl
    | ok r =>
      dsimp only
      cases firstPublicIp r with
      | error e => rfl
      | ok ip => rfl
  · intro env2 h
    rw [run env2 _ h, run env _ rfl]
  · intro inst is rs h
    rw [status_complete env q _ _ h (firstPublicIp_cons inst is rs)]
    rfl

/-- Witness of C6: the provider answers with one instance at `13.233.10.7`. -/
theorem status_single_describe_witness :
    describeCalls (statusHandler (acceptingEnv "brave-red-fox" "i-0abc123" (some "13.233.10.7"))
        (.str "i-0abc123")).trace = [[.str "i-0abc123"]]
    ∧ statusHandler (acceptingEnv "calm-blue-owl" "i-0abc123" (some "13.233.10.7"))
          (.str "i-0abc123")
        = statusHandler (acceptingEnv "brave-red-fox" "i-0abc123" (some "13.233.10.7"))
          (.str "i-0abc123")
    ∧ (statusHandler (acceptingEnv "brave-red-fox" "i-0abc123" (some "13.233.10.7"))
        (.str "i-0abc123")).trace =
          [.ec2DescribeInstances [.str "i-0abc123"],
           .resJson (.obj [("status", .str "Deployment Complete!"),
                           ("projectUrl", .str "13.233.10.7")])] :=
  ⟨(status_single_describe (acceptingEnv "brave-red-fox" "i-0abc123" (some "13.233.10.7"))
      (.str "i-0abc123")).1,
   (status_single_describe (acceptingEnv "brave-red-fox" "i-0abc123" (some "13.233.10.7"))
      (.str "i-0abc123")).2.1 (acceptingEnv "calm-blue-owl" "i-0abc123" (some "13.233.10.7")) rfl,
   (status_single_describe (acceptingEnv "brave-red-fox" "i-0abc123" (some "13.233.10.7"))
      (.str "i-0abc123")).2.2 ⟨some "i-0abc123", some "13.233.10.7"⟩ [] [] rfl⟩

/-- C7: when the instance id is unknown to the provider (the describe call is
rejected, or its answer holds no reservation or no instance) the status run
sends exactly one response, the raised error object, and that response is not
the success shape `{status: "Deployment Complete!", projectUrl}`. -/
theorem status_unknown_instance (env : Env) (q : JsVal)
    (h : unknownInstance env q = true) :
    ∃ e : JsErr,
      (env.describeInstances [q] = .error e
        ∨ ∃ r, env.describeInstances [q] = .ok r ∧ firstPublicIp r = .error e)
      ∧ (statusHandler env q).trace =
          [.ec2DescribeInstances [q], .consoleLog [.err e], .resJson (.err e)]
      ∧ responses (statusHandler env q).trace = [.err e]
      ∧ (statusHandler env q).result = .ok ()
      ∧ ∀ a : JsVal, responses (statusHandler env q).trace ≠ [statusSuccess a] := by
  unfold unknownInstance at h
  cases hd : env.describeInstances [q] with
  | error e =>
    refine ⟨e, Or.inl rfl, ?_, ?_, ?_, ?_⟩
    · rw [status_describe_rejected env q e hd]
    · rw [status_describe_rejected env q e hd]; rfl
    · rw [status_describe_rejected env q e hd]
    · intro a
      rw [status_describe_rejected env q e hd]
      intro hc
      cases hc
  | ok r =>
    rw [hd] at h
    obtain ⟨prop, hp⟩ := firstPublicIp_noInstance r h
    refine ⟨typeError prop, Or.inr ⟨r, rfl, hp⟩, ?_, ?_, ?_, ?_⟩
    · rw [status_describe_malformed env q r _ hd hp]
    · rw [status_describe_malformed env q r _ hd hp]; rfl
    · rw [status_describe_malformed env q r _ hd hp]
    · intro a
      rw [status_describe_malformed env q r _ hd hp]
      intro hc
      cases hc

/-- Witness of C7: the provider rejects the describe call for `i-0missing`. -/
theorem status_unknown_instance_witness :
    unknownInstance unknownIdEnv (.str "i-0missing") = true
    ∧ ∃ e : JsErr,
      (unknownIdEnv.describeInstances [.str "i-0missing"] = .error e
        ∨ ∃ r, unknownIdEnv.describeInstances [.str "i-0missing"] = .ok r
            ∧ firstPublicIp r = .error e)
      ∧ (statusHandler unknownIdEnv (.str "i-0missing")).trace =
          [.ec2DescribeInstances [.str "i-0missing"], .consoleLog [.err e], .resJson (.err e)]
      ∧ responses (statusHandler unknownIdEnv (.str "i-0missing")).trace = [.err e]
      ∧ (statusHandler unknownIdEnv (.str "i-0missing")).result = .ok ()
      ∧ ∀ a : JsVal,
          responses (statusHandler unknownIdEnv (.str "i-0missing")).trace ≠ [statusSuccess a] :=
  ⟨rfl, status_unknown_instance unknownIdEnv (.str "i-0missing") rfl⟩

/-- C8: when the describe call succeeds with an instance that has no public
address yet, the status run does not throw and sends exactly one response,
whose `projectUrl` is absent (`undefined`); that response differs from the
response of every status run whose instance has an address. -/
theorem status_no_address_yet (env : Env) (q : JsVal) (inst : Instance)
    (is : List Instance) (rs : List Reservation)
    (h : env.describeInstances [q] = .ok ⟨some (⟨some (inst :: is)⟩ :: rs)⟩)
    (hna : inst.PublicIpAddress = none) :
    (statusHandler env q).result = .ok ()
    ∧ responses (statusHandler env q).trace
        = [.obj [("status", .str "Deployment Complete!"), ("projectUrl", .undefined)]]
    ∧ (responses (statusHandler env q).trace).map (JsVal.get "projectUrl") = [.undefined]
    ∧ ∀ (env2 : Env) (q2 : JsVal) (inst2 : Instance) (is2 : List Instance)
        (rs2 : List Reservation) (a : String),
        env2.describeInstances [q2] = .ok ⟨some (⟨some (inst2 :: is2)⟩ :: rs2)⟩ →
        inst2.PublicIpAddress = some a →
        responses (statusHandler env2 q2).trace ≠ responses (statusHandler env q).trace := by
  have e1 : statusHandler env q =
      ⟨[.ec2DescribeInstances [q], .resJson (statusSuccess .undefined)], .ok ()⟩ := by
    rw [status_complete env q _ _ h (firstPublicIp_cons inst is rs), hna]
    rfl
  refine ⟨?_, ?_, ?_, ?_⟩
  · rw [e1]
  · rw [e1]; rfl
  · rw [e1]; rfl
  · intro env2 q2 inst2 is2 rs2 a h2 ha
    have e2 : statusHandler env2 q2 =
        ⟨[.ec2DescribeInstances [q2], .resJson (statusSuccess (.str a))], .ok ()⟩ := by
      rw [status_complete env2 q2 _ _ h2 (firstPublicIp_cons inst2 is2 rs2), ha]
      rfl
    rw [e1, e2]
    intro hc
    have h3 : (responses [Event.ec2DescribeInstances [q2],
        Event.resJson (statusSuccess (.str a))]).map (JsVal.get "projectUrl")
        = (responses [Event.ec2DescribeInstances [q],
        Event.resJson (statusSuccess .undefined)]).map (JsVal.get "projectUrl") := by
      rw [hc]
    have h4 : [JsVal.str a] = [JsVal.undefined] := h3
    cases h4

/-- Witness of C8: an instance without an address, compared with the same
instance once it has the address `13.233.10.7`. -/
theorem status_no_address_yet_witness :
    (statusHandler (acceptingEnv "brave-red-fox" "i-0abc123" none) (.str "i-0abc123")).result
      = .ok ()
    ∧ responses (statusHandler (acceptingEnv "brave-red-fox" "i-0abc123" none)
        (.str "i-0abc123")).trace
        = [.obj [("status", .str "Deployment Complete!"), ("projectUrl", .undefined)]]
    ∧ responses (statusHandler (acceptingEnv "brave-red-fox" "i-0abc123" (some "13.233.10.7"))
        (.str "i-0abc123")).trace
        ≠ responses (statusHandler (acceptingEnv "brave-red-fox" "i-0abc123" none)
            (.str "i-0abc123")).trace :=
  ⟨(status_no_address_yet (acceptingEnv "brave-red-fox" "i-0abc123" none) (.str "i-0abc123")
      ⟨some "i-0abc123", none⟩ [] [] rfl rfl).1,
   (status_no_address_yet (acceptingEnv "brave-red-fox" "i-0abc123" none) (.str "i-0abc123")
      ⟨some "i-0abc123", none⟩ [] [] rfl rfl).2.1,
   (status_no_address_yet (acceptingEnv "brave-red-fox" "i-0abc123" none) (.str "i-0abc123")
      ⟨some "i-0abc123", none⟩ [] [] rfl rfl).2.2.2
      (acceptingEnv "brave-red-fox" "i-0abc123" (some "13.233.10.7")) (.str "i-0abc123")
      ⟨some "i-0abc123", some "13.233.10.7"⟩ [] [] "13.233.10.7" rfl rfl⟩

end Weblift
